import Mathlib

/-!
Verification development for the session/state engine of the buildbuddy bot:
a shallow embedding of the user-profile store, the conversation log, the
survey finite-state machine, the reset-confirmation protocol, the dialogue
router and the product-query detector, together with proofs of the spec's
testable properties.

Source files embedded:
  app/services/database.py     (DatabaseService)
  app/handlers/ai_processing.py (restart_command, handle_text_message,
                                 handle_restart_confirmation, reset_user_data,
                                 handle_photo_message)
  app/handlers/questions.py    (the 15-question design survey)
  app/services/product_search.py (ProductSearchService)

Modelling conventions:
  * JSON values stored in a user session are the inductive `Val`; a session
    (Python dict) is an association list with Python dict semantics: updating
    an existing key keeps its position, a new key is appended at the end.
  * `datetime.now().isoformat()` is modelled by an abstract clock value
    `t : Nat` passed to every operation; two operations performed at
    different wall-clock instants receive different `t`.
  * Users are keyed by their id directly (the source keys both JSON files by
    `str(user_id)`, which is injective in the id).
  * File I/O always succeeds; `os.path.exists(...)` for the two JSON files is
    tracked by the booleans `usersFilePresent` / `convsFilePresent`, which a
    successful save switches on.  A missing or corrupt file loads as `{}`.
  * The AI completion and vision collaborators are abstract function
    parameters, as the spec treats them (section 6).
-/

namespace BuildBuddy

mutual

/-- JSON-like values stored in a user session dict. -/
inductive Val where
  | none : Val
  | bool (b : Bool) : Val
  | int (n : Int) : Val
  | str (s : String) : Val
  | dict (d : ValDict) : Val
deriving DecidableEq

/-- A nested JSON object value (e.g. the default `preferences: {}`). -/
inductive ValDict where
  | nil : ValDict
  | cons (k : String) (v : Val) (rest : ValDict) : ValDict
deriving DecidableEq

end

/-- A user session: a Python dict from string keys to values. -/
abbrev Session := List (String × Val)

/-- Dict read: `d.get(k)`, `Option.none` when the key is absent. -/
def getv (s : Session) (k : String) : Option Val :=
  match s with
  | [] => Option.none
  | (k0, v0) :: rest => if k0 == k then some v0 else getv rest k

/-- Dict write `d[k] = v`: replaces in place, or appends a fresh key at the
end (Python 3.7+ insertion-order semantics). -/
def setv (s : Session) (k : String) (v : Val) : Session :=
  match s with
  | [] => [(k, v)]
  | (k0, v0) :: rest => if k0 == k then (k, v) :: rest else (k0, v0) :: setv rest k v

/-- Python truthiness of `d.get(k)` (with default `None` / `False`): `None`,
`False`, `0`, `""` and `{}` are falsy. -/
def truthy : Option Val → Bool
  | Option.none => false
  | some Val.none => false
  | some (Val.bool b) => b
  | some (Val.int n) => n != 0
  | some (Val.str s) => s != ""
  | some (Val.dict ValDict.nil) => false
  | some (Val.dict (ValDict.cons _ _ _)) => true

/-- One entry of the conversation log
(`{'message': ..., 'sender': ..., 'timestamp': ...}`). -/
structure ConvMessage where
  message : String
  sender : String
  timestamp : Nat
deriving DecidableEq

/-- Association-list read for the per-user tables. -/
def alget {α : Type} (l : List (Nat × α)) (k : Nat) : Option α :=
  match l with
  | [] => Option.none
  | (k0, v0) :: rest => if k0 == k then some v0 else alget rest k

/-- Association-list write for the per-user tables (dict semantics). -/
def alset {α : Type} (l : List (Nat × α)) (k : Nat) (v : α) : List (Nat × α) :=
  match l with
  | [] => [(k, v)]
  | (k0, v0) :: rest => if k0 == k then (k, v) :: rest else (k0, v0) :: alset rest k v

/-- The persistent state: the two JSON files of `DatabaseService`. -/
structure DB where
  usersFilePresent : Bool
  convsFilePresent : Bool
  users : List (Nat × Session)
  convs : List (Nat × List ConvMessage)
deriving DecidableEq

/-- `DatabaseService._create_default_user_session`. -/
def defaultSession (uid t : Nat) : Session :=
  [("user_id", Val.int uid),
   ("created_at", Val.int t),
   ("updated_at", Val.int t),
   ("language", Val.str "auto"),
   ("survey_completed", Val.bool false),
   ("preferences", Val.dict ValDict.nil),
   ("in_survey_mode", Val.bool false),
   ("start_option_chosen", Val.none)]

/-- `DatabaseService.get_user_session`: returns the stored session, lazily
creating and persisting a default one for an unknown user. -/
def getUserSession (db : DB) (uid t : Nat) : Session × DB :=
  match alget db.users uid with
  | some s => (s, db)
  | Option.none =>
      let s := defaultSession uid t
      (s, { db with users := alset db.users uid s, usersFilePresent := true })

/-- `DatabaseService.update_user_field`: writes one field and refreshes
`updated_at`, creating the default session first for an unknown user. -/
def updateUserField (db : DB) (uid : Nat) (field : String) (v : Val) (t : Nat) : DB :=
  let s := (alget db.users uid).getD (defaultSession uid t)
  let s2 := setv (setv s field v) "updated_at" (Val.int t)
  { db with users := alset db.users uid s2, usersFilePresent := true }

/-- The 50-entry cap applied after each append
(`if len(log) > 50: log = log[-50:]`). -/
def capConv (l : List ConvMessage) : List ConvMessage :=
  if l.length > 50 then l.drop (l.length - 50) else l

/-- `DatabaseService.add_conversation_message`. -/
def addConversationMessage (db : DB) (uid : Nat) (msg sender : String) (t : Nat) : DB :=
  let l := (alget db.convs uid).getD []
  let l2 := capConv (l ++ [⟨msg, sender, t⟩])
  { db with convs := alset db.convs uid l2, convsFilePresent := true }

/-- `DatabaseService.get_conversation_history`: the Python slice
`log[-limit:]`, which for `limit = 0` is `log[0:]`, i.e. the whole list. -/
def getConversationHistory (db : DB) (uid : Nat) (limit : Nat) : List ConvMessage :=
  match alget db.convs uid with
  | some l => if limit = 0 then l else l.drop (l.length - limit)
  | Option.none => []

/-- Folding a batch of appends for one user, used to state the log-cap
property over a whole sequence of `add_conversation_message` calls. -/
def addMany (db : DB) (uid : Nat) (msgs : List ConvMessage) : DB :=
  msgs.foldl (fun acc m => addConversationMessage acc uid m.message m.sender m.timestamp) db

/- ### Python string helpers -/

/-- Python `str.lower()` restricted to the alphabets this bot handles:
ASCII letters, the Cyrillic range А-Я (U+0410-U+042F maps to +0x20) and
Ё (U+0401 maps to U+0451). -/
def pyLowerChar (c : Char) : Char :=
  let n := c.toNat
  if 65 ≤ n && n ≤ 90 then Char.ofNat (n + 32)
  else if 0x410 ≤ n && n ≤ 0x42F then Char.ofNat (n + 32)
  else if n == 0x401 then Char.ofNat 0x451
  else c

/-- Lowercase a character list. -/
def lowerL (l : List Char) : List Char := l.map pyLowerChar

/-- Python `str.lower()`. -/
def pyLower (s : String) : String := String.mk (lowerL s.toList)

/-- The whitespace characters relevant to `str.strip()` here (ASCII). -/
def isPySpace (c : Char) : Bool := c == ' ' || c == '\t' || c == '\n' || c == '\r'

/-- Python `str.strip()` on a character list. -/
def stripL (l : List Char) : List Char :=
  ((l.dropWhile isPySpace).reverse.dropWhile isPySpace).reverse

/-- Python `str.strip()`. -/
def pyStrip (s : String) : String := String.mk (stripL s.toList)

/-- Python `str(value)` for the values a session field can hold.  A stored
JSON object never reaches a rendered template in this code base, so its
rendering is schematic. -/
def pyStr : Val → String
  | Val.none => "None"
  | Val.bool true => "True"
  | Val.bool false => "False"
  | Val.int n => toString n
  | Val.str s => s
  | Val.dict _ => "\x7b...\x7d"

/-- Python `d.get(k, dflt)`. -/
def sessGet (s : Session) (k : String) (dflt : Val) : Val := (getv s k).getD dflt

/-- String-keyed association-list lookup (a Python dict read). -/
def alookupStr {α : Type} (l : List (String × α)) (k : String) : Option α :=
  match l with
  | [] => Option.none
  | (k0, v0) :: rest => if k0 == k then some v0 else alookupStr rest k

/- ### Reset-confirmation protocol (`app/handlers/ai_processing.py`) -/

/-- The affirmative answers accepted by `handle_restart_confirmation`. -/
def affirmativeTokens : List String := ["да", "yes", "y", "д"]

/-- The negative answers accepted by `handle_restart_confirmation`. -/
def negativeTokens : List String := ["нет", "no", "n", "н"]

/-- The success reply after a confirmed reset. -/
def restartSuccessMessage : String :=
  "✅ **Данные успешно сброшены!**\n\n🔄 Теперь вы можете начать заново:\n• Отправьте /start для начала работы\n• Пройдите тест командой /test для персонализации\n• Задавайте любые вопросы\n\nДобро пожаловать в новое начало! 🚀"

/-- The reply when the reset step itself fails. -/
def restartErrorMessage : String :=
  "❌ Произошла ошибка при сбросе данных. Попробуйте еще раз."

/-- The reply when the user cancels the reset. -/
def restartCancelMessage : String :=
  "❌ **Сброс данных отменен**\n\n✅ Ваши данные сохранены и остались без изменений.\n\nПродолжайте использовать бота как обычно! 😊"

/-- The re-prompt for an unrecognised confirmation answer. -/
def restartInvalidMessage : String :=
  "🤔 Не понял ваш ответ.\n\nДля подтверждения сброса напишите **\"да\"** или **\"yes\"**\nДля отмены напишите **\"нет\"** или **\"no\"**"

/-- The refusal when there is nothing to reset. -/
def nothingToResetMessage : String :=
  "ℹ️ У вас пока нет сохраненных данных для сброса."

/-- The yes/no confirmation prompt of `/restart`. -/
def restartConfirmMessage : String :=
  "🔄 **Сброс данных пользователя**\n\nВы уверены, что хотите сбросить все ваши данные и начать заново?\n\n⚠️ **Это действие удалит:**\n• Результаты теста предпочтений\n• Сохраненные настройки\n• Историю общения\n• Все персональные данные\n\n❌ **Данные нельзя будет восстановить!**\n\nДля подтверждения напишите **\"да\"** или **\"yes\"**\nДля отмены напишите **\"нет\"** или **\"no\"**"

/-- The fresh session written by `reset_user_data` (the default session plus
an explicit `pending_confirmation: None`). -/
def freshSession (uid t : Nat) : Session :=
  [("user_id", Val.int uid),
   ("created_at", Val.int t),
   ("updated_at", Val.int t),
   ("language", Val.str "auto"),
   ("survey_completed", Val.bool false),
   ("preferences", Val.dict ValDict.nil),
   ("in_survey_mode", Val.bool false),
   ("start_option_chosen", Val.none),
   ("pending_confirmation", Val.none)]

/-- `reset_user_data`: when the users file exists, replace the whole session
with a fresh one and clear the user's conversation entry (when the
conversations file exists and has one); when the users file is missing,
report failure and change nothing. -/
def resetUserData (db : DB) (uid t : Nat) : Bool × DB :=
  if db.usersFilePresent then
    let db1 := { db with users := alset db.users uid (freshSession uid t) }
    let db2 :=
      if db1.convsFilePresent then
        match alget db1.convs uid with
        | some _ => { db1 with convs := alset db1.convs uid [] }
        | Option.none => db1
      else db1
    (true, db2)
  else (false, db)

/-- The observable outcome of one text/photo turn: the persistent state, the
reply sent (if any) and whether the AI collaborator was invoked. -/
structure TurnResult where
  db : DB
  reply : Option String
  aiCalled : Bool
deriving DecidableEq

/-- `handle_restart_confirmation`: logs the user's answer, then confirms
(affirmative token), cancels (negative token) or re-prompts. -/
def handleRestartConfirmation (db : DB) (uid : Nat) (input : String) (t : Nat) : TurnResult :=
  let low := pyStrip (pyLower input)
  let db1 := addConversationMessage db uid input "user" t
  if affirmativeTokens.contains low then
    let r := resetUserData db1 uid t
    if r.1 then
      { db := addConversationMessage r.2 uid restartSuccessMessage "bot" t,
        reply := some restartSuccessMessage, aiCalled := false }
    else
      { db := addConversationMessage r.2 uid restartErrorMessage "bot" t,
        reply := some restartErrorMessage, aiCalled := false }
  else if negativeTokens.contains low then
    let db2 := updateUserField db1 uid "pending_confirmation" Val.none t
    { db := addConversationMessage db2 uid restartCancelMessage "bot" t,
      reply := some restartCancelMessage, aiCalled := false }
  else
    { db := addConversationMessage db1 uid restartInvalidMessage "bot" t,
      reply := some restartInvalidMessage, aiCalled := false }

/-- The `has_data` truthiness test of `restart_command`. -/
def hasData (s : Session) : Bool :=
  truthy (getv s "name") || truthy (getv s "age") || truthy (getv s "interests") ||
    truthy (getv s "preferences") || truthy (getv s "survey_completed")

/-- `/restart` (`restart_command`): refuse when the profile holds no
resettable data, otherwise set `pending_confirmation = 'restart'` and ask
for a yes/no answer. -/
def restartCommand (db : DB) (uid t : Nat) : TurnResult :=
  let p := getUserSession db uid t
  if !(hasData p.1) then
    { db := p.2, reply := some nothingToResetMessage, aiCalled := false }
  else
    { db := updateUserField p.2 uid "pending_confirmation" (Val.str "restart") t,
      reply := some restartConfirmMessage, aiCalled := false }

/- ### AI field-merge and the text-message router -/

/-- The metadata keys the AI merge loop skips. -/
def mergeProtectedKeys : List String := ["user_id", "created_at", "updated_at"]

/-- The per-key condition of the merge loop in `handle_text_message` /
`handle_photo_message`: the key is not protected, the value differs from the
`before` snapshot (`.get` yields `None` for a missing key) and the value is
neither `None` nor the empty string. -/
def mergeCond (before : Session) (kv : String × Val) : Bool :=
  !(mergeProtectedKeys.contains kv.1) &&
    kv.2 != (getv before kv.1).getD Val.none &&
    kv.2 != Val.none && kv.2 != Val.str ""

/-- Python dict equality (order-insensitive) between two sessions. -/
def dictEq (a b : Session) : Bool :=
  a.all (fun kv => getv b kv.1 == some kv.2) && b.all (fun kv => getv a kv.1 == some kv.2)

/-- The keys actually written by the merge of an `(before, after)` pair. -/
def mergedWrites (before after : Session) : Session :=
  after.filter (mergeCond before)

/-- The field-merge of an AI-returned session against the stored snapshot
(`if updated_session != user_session: for key, value in ...`). -/
def applyMerge (db : DB) (uid : Nat) (before after : Session) (t : Nat) : DB :=
  if dictEq after before then db
  else
    after.foldl
      (fun acc kv =>
        if mergeCond before kv then updateUserField acc uid kv.1 kv.2 t else acc)
      db

/-- The effect of one `update_user_field` call on the stored session: write
the key, refresh `updated_at`. -/
def sessionWrite (t : Nat) (acc : Session) (kv : String × Val) : Session :=
  setv (setv acc kv.1 kv.2) "updated_at" (Val.int t)

/-- `handle_text_message` for a non-command text: ignore blank input; while
in survey mode do nothing (the survey router owns the turn); while a restart
confirmation is pending delegate to the confirmation protocol; otherwise run
the AI dialogue (`ai` is the abstract `analyze_text_with_ai` collaborator),
merge the returned session and log both turns. -/
def handleTextMessage (db : DB) (uid : Nat) (text : String) (t : Nat)
    (ai : String → Session → Session × String) : TurnResult :=
  if pyStrip text == "" then { db := db, reply := Option.none, aiCalled := false }
  else
    let input := pyStrip text
    let p := getUserSession db uid t
    if truthy (getv p.1 "in_survey_mode") then
      { db := p.2, reply := Option.none, aiCalled := false }
    else if getv p.1 "pending_confirmation" == some (Val.str "restart") then
      handleRestartConfirmation p.2 uid input t
    else
      let r := ai input p.1
      let db2 := applyMerge p.2 uid p.1 r.1 t
      let db3 := addConversationMessage db2 uid input "user" t
      let db4 := addConversationMessage db3 uid r.2 "bot" t
      { db := db4, reply := some r.2, aiCalled := true }

/- ### Photo handler (`handle_photo_message`) -/

/-- The one-photo-at-a-time explanation (Russian). -/
def multiPhotoMessageRu : String :=
  "Множественные фотографии\n\nИзвините, но я могу анализировать только одну фотографию за раз.\n\nПочему так:\n• Для качественного анализа нужен фокус на одном интерьере\n• Множественные фото могут создавать путаницу\n• Я даю детальные рекомендации по каждому изображению\n\nЧто делать:\n• Отправьте одну фотографию для анализа\n• Или опишите, что именно вас интересует\n• Я готов дать профессиональные советы по дизайну"

/-- The one-photo-at-a-time explanation (English). -/
def multiPhotoMessageEn : String :=
  "Multiple Photos\n\nSorry, but I can analyze only one photo at a time.\n\nWhy:\n• Quality analysis requires focus on one interior\n• Multiple photos can create confusion\n• I provide detailed recommendations for each image\n\nWhat to do:\n• Send one photo for analysis\n• Or describe what interests you\n• I\x27m ready to give professional design advice"

/-- The Telegram-length truncation applied to the photo reply
(`ai_response[:3000] + marker` when longer than 3000 characters). -/
def photoTruncate (s : String) : String :=
  if s.length > 3000 then s.take 3000 ++ "\n\n... (ответ обрезан)" else s

/-- `handle_photo_message`: a photo belonging to a media group is never
analysed — the first one of a group marks the group as seen and receives the
one-photo-at-a-time explanation, later ones are silently skipped; a single
photo is analysed (the abstract `ai` collaborator is
`analyze_image_with_ai`, `visionDesc` the vision description used for the
log entry), merged and logged, unless the user is in survey mode. -/
def handlePhotoMessage (db : DB) (uid : Nat) (mediaGroupId : Option String)
    (langCode : Option String) (visionDesc : String) (t : Nat)
    (ai : Session → Session × String) : TurnResult :=
  let p := getUserSession db uid t
  match mediaGroupId with
  | some g =>
      let key := "media_group_" ++ g
      if truthy (getv p.1 key) then
        { db := p.2, reply := Option.none, aiCalled := false }
      else
        let db2 := updateUserField p.2 uid key (Val.bool true) t
        let resp := if langCode == some "ru" then multiPhotoMessageRu else multiPhotoMessageEn
        { db := db2, reply := some resp, aiCalled := false }
  | Option.none =>
      if truthy (getv p.1 "in_survey_mode") then
        { db := p.2, reply := Option.none, aiCalled := false }
      else
        let r := ai p.1
        let db2 := applyMerge p.2 uid p.1 r.1 t
        let resp := photoTruncate r.2
        let db3 := addConversationMessage db2 uid ("[Photo: " ++ visionDesc ++ "]") "user" t
        let db4 := addConversationMessage db3 uid resp "bot" t
        { db := db4, reply := some resp, aiCalled := true }

/- ### The 15-question design survey (`app/handlers/questions.py`) -/

/-- The aiogram FSM states of `DesignSurveyStates`. -/
inductive SurveyState where
  | waitingStyleChoice : SurveyState
  | waitingColorPreference : SurveyState
  | waitingMaterialPreference : SurveyState
  | waitingSpaceType : SurveyState
  | waitingRoomPreference : SurveyState
  | waitingLayoutStyle : SurveyState
  | waitingFunctionality : SurveyState
  | waitingLightingPreference : SurveyState
  | waitingStoragePreference : SurveyState
  | waitingBudgetRange : SurveyState
  | waitingTimeline : SurveyState
  | waitingPriority : SurveyState
  | waitingLifestyle : SurveyState
  | waitingFamilyNeeds : SurveyState
  | waitingPersonalTouch : SurveyState
deriving DecidableEq

/-- `DESIGN_STYLES`: style key, display name and description. -/
def designStyles : List (String × String × String) :=
  [("modern", ("Современный (Modern)", "Чистые линии, минимализм, функциональность")),
   ("classic", ("Классический (Classic)", "Элегантность, традиции, роскошь")),
   ("scandinavian", ("Скандинавский (Scandinavian)", "Светлость, натуральные материалы, уют")),
   ("industrial", ("Индустриальный (Industrial)", "Открытые коммуникации, металл, бетон")),
   ("rustic", ("Рустик (Rustic)", "Натуральность, теплота, деревенский шарм")),
   ("contemporary", ("Современный эклектичный (Contemporary)", "Смешение стилей, индивидуальность, тренды"))]

/-- One line of the completion summary:
`user_session.get(key, 'Не указано')` rendered into the template. -/
def summaryField (s : Session) (k : String) : String :=
  pyStr (sessGet s k (Val.str "Не указано"))

/-- The completion summary of `complete_design_survey`. -/
def surveySummary (s : Session) : String :=
  "🎉 **ПРОФЕССИОНАЛЬНЫЙ ТЕСТ ПО ДИЗАЙНУ ИНТЕРЬЕРА ЗАВЕРШЕН!**\n\n✅ Спасибо за прохождение теста! Теперь я знаю ваши предпочтения как профессиональный архитектор и дизайнер интерьеров.\n\n📊 **Ваш дизайн-профиль:**\n\n🎨 **Стиль:** "
    ++ summaryField s "preferred_style" ++ "\n🎨 **Цвета:** "
    ++ summaryField s "color_preference" ++ "\n🏗️ **Материалы:** "
    ++ summaryField s "material_preference" ++ "\n🏠 **Тип пространства:** "
    ++ summaryField s "space_type" ++ "\n🚪 **Помещения:** "
    ++ summaryField s "room_preference" ++ "\n📐 **Планировка:** "
    ++ summaryField s "layout_style" ++ "\n⚙️ **Функциональность:** "
    ++ summaryField s "functionality_preference" ++ "\n💡 **Освещение:** "
    ++ summaryField s "lighting_preference" ++ "\n🗄️ **Хранение:** "
    ++ summaryField s "storage_preference" ++ "\n💰 **Бюджет:** "
    ++ summaryField s "budget_range" ++ "\n⏰ **Время:** "
    ++ summaryField s "timeline" ++ "\n🎯 **Приоритеты:** "
    ++ summaryField s "project_priority" ++ "\n🌟 **Образ жизни:** "
    ++ summaryField s "lifestyle" ++ "\n👨‍👩‍👧‍👦 **Семья:** "
    ++ summaryField s "family_needs" ++ "\n🎭 **Личные акценты:** "
    ++ summaryField s "personal_touch"
    ++ "\n\n💡 **Теперь я могу давать вам профессиональные дизайнерские советы на основе ваших предпочтений!**\n\n🚀 Можете задавать любые вопросы по дизайну, планировке, материалам или отправлять фотографии для профессионального анализа."

/-- `/test` / `/survey` (`start_design_survey`, `start_survey_english`):
both set the survey flag and move the FSM to the style question. -/
def startDesignSurvey (db : DB) (uid t : Nat) : DB × Option SurveyState :=
  (updateUserField db uid "in_survey_mode" (Val.bool true) t,
   some SurveyState.waitingStyleChoice)

/-- `handle_style_choice` (the `style_*` callback): stores the chosen style
key and its description, logs the choice and moves to the colour question.
An unknown style key raises `KeyError` after the first write; the blanket
handler then leaves the FSM state unchanged. -/
def handleStyleChoice (db : DB) (uid : Nat) (st0 : Option SurveyState)
    (style : String) (t : Nat) : DB × Option SurveyState :=
  let db1 := updateUserField db uid "preferred_style" (Val.str style) t
  match alookupStr designStyles style with
  | some nd =>
      let db2 := updateUserField db1 uid "style_description" (Val.str nd.2) t
      let db3 := addConversationMessage db2 uid ("Выбран стиль: " ++ nd.1) "user" t
      (db3, some SurveyState.waitingColorPreference)
  | Option.none => (db1, st0)

/-- The shared body of the 13 middle question handlers: store the text under
the question's field, log it and move to the next state. -/
def surveyStore (db : DB) (uid : Nat) (key text : String) (next : SurveyState)
    (t : Nat) : DB × Option SurveyState :=
  (addConversationMessage (updateUserField db uid key (Val.str text) t) uid text "user" t,
   some next)

/-- The per-state text-message handlers of the survey
(`handle_color_preference` … `handle_personal_touch`).  No text handler is
registered for `waiting_style_choice` (question 1 is answered by callback),
so a text message there leaves the survey untouched.  The last handler also
flips `survey_completed` / `in_survey_mode` and appends the completion
summary (`complete_design_survey`), clearing the FSM state. -/
def handleSurveyAnswer (db : DB) (uid : Nat) (st : SurveyState) (text : String)
    (t : Nat) : DB × Option SurveyState :=
  match st with
  | SurveyState.waitingStyleChoice => (db, some SurveyState.waitingStyleChoice)
  | SurveyState.waitingColorPreference =>
      surveyStore db uid "color_preference" text SurveyState.waitingMaterialPreference t
  | SurveyState.waitingMaterialPreference =>
      surveyStore db uid "material_preference" text SurveyState.waitingSpaceType t
  | SurveyState.waitingSpaceType =>
      surveyStore db uid "space_type" text SurveyState.waitingRoomPreference t
  | SurveyState.waitingRoomPreference =>
      surveyStore db uid "room_preference" text SurveyState.waitingLayoutStyle t
  | SurveyState.waitingLayoutStyle =>
      surveyStore db uid "layout_style" text SurveyState.waitingFunctionality t
  | SurveyState.waitingFunctionality =>
      surveyStore db uid "functionality_preference" text SurveyState.waitingLightingPreference t
  | SurveyState.waitingLightingPreference =>
      surveyStore db uid "lighting_preference" text SurveyState.waitingStoragePreference t
  | SurveyState.waitingStoragePreference =>
      surveyStore db uid "storage_preference" text SurveyState.waitingBudgetRange t
  | SurveyState.waitingBudgetRange =>
      surveyStore db uid "budget_range" text SurveyState.waitingTimeline t
  | SurveyState.waitingTimeline =>
      surveyStore db uid "timeline" text SurveyState.waitingPriority t
  | SurveyState.waitingPriority =>
      surveyStore db uid "project_priority" text SurveyState.waitingLifestyle t
  | SurveyState.waitingLifestyle =>
      surveyStore db uid "lifestyle" text SurveyState.waitingFamilyNeeds t
  | SurveyState.waitingFamilyNeeds =>
      surveyStore db uid "family_needs" text SurveyState.waitingPersonalTouch t
  | SurveyState.waitingPersonalTouch =>
      let db1 := updateUserField db uid "personal_touch" (Val.str text) t
      let db2 := updateUserField db1 uid "survey_completed" (Val.bool true) t
      let db3 := updateUserField db2 uid "in_survey_mode" (Val.bool false) t
      let db4 := addConversationMessage db3 uid text "user" t
      let p := getUserSession db4 uid t
      (addConversationMessage p.2 uid (surveySummary p.1) "bot" t, Option.none)

/-- Routing of one survey answer given the current FSM state; with no
survey state active the questions router does not own the message. -/
def surveyRoute (uid t : Nat) (acc : DB × Option SurveyState) (text : String) :
    DB × Option SurveyState :=
  match acc.2 with
  | some st => handleSurveyAnswer acc.1 uid st text t
  | Option.none => acc

/-- A complete pass through the survey: the style callback followed by the
fourteen free-text answers, starting in `waiting_style_choice`. -/
def runFullSurvey (db : DB) (uid t : Nat) (style : String) (answers : List String) :
    DB × Option SurveyState :=
  answers.foldl (surveyRoute uid t)
    (handleStyleChoice db uid (some SurveyState.waitingStyleChoice) style t)

/- ### Product search (`app/services/product_search.py`) -/

/-- Character-list prefix test. -/
def isPre : List Char → List Char → Bool
  | [], _ => true
  | _ :: _, [] => false
  | a :: as, b :: bs => a == b && isPre as bs

/-- Python `needle in hay` on character lists. -/
def hasSub (needle hay : List Char) : Bool :=
  match hay with
  | [] => needle.isEmpty
  | _ :: rest => isPre needle hay || hasSub needle rest

/-- Python `hay.find(needle)`: index of the leftmost occurrence. -/
def findSub (needle hay : List Char) : Option Nat :=
  match hay with
  | [] => if needle.isEmpty then some 0 else Option.none
  | _ :: rest =>
      if isPre needle hay then some 0 else (findSub needle rest).map (fun i => i + 1)

/-- Python `str.split()`: split on whitespace runs, no empty words. -/
def pySplitGo : List Char → List Char → List (List Char)
  | [], acc => if acc.isEmpty then [] else [acc.reverse]
  | c :: rest, acc =>
      if isPySpace c then
        if acc.isEmpty then pySplitGo rest [] else acc.reverse :: pySplitGo rest []
      else pySplitGo rest (c :: acc)

/-- Python `str.split()`. -/
def pySplit (l : List Char) : List (List Char) := pySplitGo l []

/-- Python `' '.join(words)`. -/
def joinSpace : List (List Char) → List Char
  | [] => []
  | [w] => w
  | w :: rest => w ++ ' ' :: joinSpace rest

/-- Python `s.replace(pat, rep)` with a non-empty pattern: leftmost,
non-overlapping.  The structural fuel equals the remaining length, so the
exhaustion branch is unreachable. -/
def replaceAllGo (p : Char) (ps rep : List Char) : Nat → List Char → List Char
  | _, [] => []
  | 0, s => s
  | fuel + 1, c :: rest =>
      if isPre (p :: ps) (c :: rest) then
        rep ++ replaceAllGo p ps rep fuel (rest.drop ps.length)
      else c :: replaceAllGo p ps rep fuel rest

/-- Python `s.replace(pat, rep)` (replacing the empty pattern is never used
by this code base and is modelled as the identity). -/
def replaceAll (pat rep s : List Char) : List Char :=
  match pat with
  | [] => s
  | p :: ps => replaceAllGo p ps rep s.length s

/-- Python `s.replace(pat, rep)` on strings. -/
def pyReplace (s pat rep : String) : String :=
  String.mk (replaceAll pat.toList rep.toList s.toList)

/-- One alternative of the `patterns[language]` list of
`_extract_product_name`: either an intent pattern `pre + lazy capture up to
the first question mark, period or end of string`, or a bare literal pattern
with no capture group. -/
inductive ExtractPat where
  | cap (pre : String) : ExtractPat
  | lit (s : String) : ExtractPat

/-- The Russian extraction patterns, in source order. -/
def ruExtractPats : List ExtractPat :=
  [ExtractPat.cap "где купить ", ExtractPat.cap "цена ", ExtractPat.cap "стоимость ",
   ExtractPat.cap "заказать ", ExtractPat.cap "такой ", ExtractPat.cap "этот ",
   ExtractPat.lit "кресла-облака", ExtractPat.lit "дивана", ExtractPat.lit "стола",
   ExtractPat.lit "шкафа"]

/-- The English extraction patterns, in source order. -/
def enExtractPats : List ExtractPat :=
  [ExtractPat.cap "where to buy ", ExtractPat.cap "price of ", ExtractPat.cap "cost of ",
   ExtractPat.cap "order ", ExtractPat.cap "such ", ExtractPat.cap "this ",
   ExtractPat.cap "can i buy ", ExtractPat.cap "where can i buy "]

/-- The `patterns` table of `_extract_product_name`. -/
def extractPatTable : List (String × List ExtractPat) :=
  [("russian", ruExtractPats), ("english", enExtractPats)]

/-- The lazy capture of `re.search(pre + r'(.*?)(?:\?|$|\.)', text, IGNORECASE)`:
at the leftmost (case-insensitive) occurrence of `pre`, the following
characters up to the first `?` or `.` (or the end of the string). -/
def matchCap (text pre : List Char) : Option (List Char) :=
  match findSub (lowerL pre) (lowerL text) with
  | some i => some ((text.drop (i + pre.length)).takeWhile (fun c => !(c == '?' || c == '.')))
  | Option.none => Option.none

/-- The pattern loop of `_extract_product_name`: a capture pattern returns
its stripped group when longer than 2 characters; a matching bare literal
pattern evaluates `match.group(1)` with no group 1, raising `IndexError`
(modelled as `Except.error`). -/
def extractByPats : List ExtractPat → List Char → Except Unit (Option (List Char))
  | [], _ => Except.ok Option.none
  | ExtractPat.cap pre :: rest, text =>
      match matchCap text pre.toList with
      | some g =>
          let g2 := stripL g
          if g2.length > 2 then Except.ok (some g2) else extractByPats rest text
      | Option.none => extractByPats rest text
  | ExtractPat.lit s :: rest, text =>
      if hasSub (lowerL s.toList) (lowerL text) then Except.error ()
      else extractByPats rest text

/-- The first fallback of `_extract_product_name`: up to 4 words following
the matched keyword, when the stripped remainder has more than 2
characters. -/
def afterKeyword (text keyword : List Char) : Option (List Char) :=
  match findSub keyword (lowerL text) with
  | some i =>
      let ak := stripL (text.drop (i + keyword.length))
      if ak.length > 2 then some (joinSpace ((pySplit ak).take 4)) else Option.none
  | Option.none => Option.none

/-- Index of the first word containing the keyword. -/
def firstContaining (keyword : List Char) : List (List Char) → Nat → Option Nat
  | [], _ => Option.none
  | w :: rest, i =>
      if hasSub keyword w then some i else firstContaining keyword rest (i + 1)

/-- The second fallback of `_extract_product_name`: the matched keyword plus
one word of surrounding context, from the lowercased text. -/
def keywordContext (text keyword : List Char) : Option (List Char) :=
  if hasSub keyword (lowerL text) then
    let words := pySplit (lowerL text)
    match firstContaining keyword words 0 with
    | some i =>
        let start := i - 1
        let stop := min words.length (i + 2)
        some (joinSpace ((words.drop start).take (stop - start)))
    | Option.none => Option.none
  else Option.none

/-- `_extract_product_name`: ordered extraction strategies — intent
patterns, then words after the keyword, then keyword context. -/
def extractProductName (text keyword : List Char) (language : String) :
    Except Unit (Option (List Char)) :=
  match extractByPats ((alookupStr extractPatTable language).getD []) text with
  | Except.error e => Except.error e
  | Except.ok (some g) => Except.ok (some g)
  | Except.ok Option.none =>
      match afterKeyword text keyword with
      | some r => Except.ok (some r)
      | Option.none =>
          match keywordContext text keyword with
          | some r => Except.ok (some r)
          | Option.none => Except.ok Option.none

/-- `self.product_categories`: category → language → keywords. -/
def productCategories : List (String × List (String × List String)) :=
  [("furniture",
    [("russian", ["мебель", "диван", "кресло", "стол", "стул", "шкаф", "комод", "кровать"]),
     ("english", ["furniture", "sofa", "armchair", "table", "chair", "cabinet", "dresser", "bed"])]),
   ("lighting",
    [("russian", ["освещение", "лампа", "светильник", "люстра", "бра", "торшер"]),
     ("english", ["lighting", "lamp", "chandelier", "sconce", "floor lamp"])]),
   ("decor",
    [("russian", ["декор", "картина", "ваза", "подушка", "ковер", "зеркало"]),
     ("english", ["decor", "art", "vase", "pillow", "rug", "mirror"])]),
   ("kitchen",
    [("russian", ["кухня", "кухонный гарнитур", "мойка", "плита", "холодильник"]),
     ("english", ["kitchen", "kitchen set", "sink", "stove", "refrigerator"])])]

/-- The purchase-intent indicators of `_is_specific_query`. -/
def specificIndicators : List String :=
  ["где купить", "where to buy", "цена", "price", "стоимость", "cost",
   "заказать", "order", "такой", "such", "этот", "this"]

/-- `_is_specific_query` applied to the lowercased input. -/
def isSpecificText (tl : List Char) : Bool :=
  specificIndicators.any (fun s => hasSub s.toList tl)

/-- The query descriptor returned by `detect_product_query`. -/
structure ProductQuery where
  category : String
  keyword : String
  productName : String
  language : String
  isSpecificQuery : Bool
deriving DecidableEq

/-- The inner keyword loop of `detect_product_query` for one category. -/
def detectKeyLoop (text tl : List Char) (language category : String) :
    List String → Except Unit (Option ProductQuery)
  | [] => Except.ok Option.none
  | kw :: rest =>
      if hasSub kw.toList tl then
        match extractProductName text kw.toList language with
        | Except.error e => Except.error e
        | Except.ok (some name) =>
            Except.ok (some
              { category := category, keyword := kw, productName := String.mk name,
                language := language, isSpecificQuery := isSpecificText tl })
        | Except.ok Option.none => detectKeyLoop text tl language category rest
      else detectKeyLoop text tl language category rest

/-- The outer category loop of `detect_product_query`. -/
def detectCatLoop (text tl : List Char) (language : String) :
    List (String × List (String × List String)) → Except Unit (Option ProductQuery)
  | [] => Except.ok Option.none
  | (cat, kws) :: rest =>
      match detectKeyLoop text tl language cat ((alookupStr kws language).getD []) with
      | Except.error e => Except.error e
      | Except.ok (some q) => Except.ok (some q)
      | Except.ok Option.none => detectCatLoop text tl language rest

/-- `detect_product_query`: first category/keyword hit with a successful
product-name extraction wins; `none` when no category keyword is present. -/
def detectProductQuery (text language : String) : Except Unit (Option ProductQuery) :=
  detectCatLoop text.toList (lowerL text.toList) language productCategories

/-- `self.search_engines`: language → engine id → URL template. -/
def searchEngines : List (String × List (String × String)) :=
  [("russian",
    [("onliner", "https://catalog.onliner.by/search?query={query}"),
     ("deal", "https://deal.by/search?q={query}"),
     ("wildberries", "https://www.wildberries.by/catalog/0/search.aspx?search={query}"),
     ("ozon", "https://www.ozon.by/search/?text={query}"),
     ("yandex_market", "https://market.yandex.ru/search?text={query}")]),
   ("english",
    [("amazon", "https://www.amazon.com/s?k={query}"),
     ("wayfair", "https://www.wayfair.com/search?query={query}"),
     ("west_elm", "https://www.westelm.com/search?q={query}"),
     ("cb2", "https://www.cb2.com/search?q={query}"),
     ("overstock", "https://www.overstock.com/search?keywords={query}")])]

/-- The `display_names` table of `generate_product_links`. -/
def displayNames : List (String × List (String × String)) :=
  [("russian",
    [("onliner", "Onliner.by"), ("deal", "Deal.by"), ("wildberries", "Wildberries"),
     ("ozon", "Ozon"), ("yandex_market", "Яндекс.Маркет")]),
   ("english",
    [("amazon", "Amazon"), ("wayfair", "Wayfair"), ("west_elm", "West Elm"),
     ("cb2", "CB2"), ("overstock", "Overstock")])]

/-- ASCII alphabetic test, for `str.title()` on engine ids. -/
def isAsciiAlpha (c : Char) : Bool :=
  (65 ≤ c.toNat && c.toNat ≤ 90) || (97 ≤ c.toNat && c.toNat ≤ 122)

/-- ASCII uppercase, for `str.title()`. -/
def upperChar (c : Char) : Char :=
  if 97 ≤ c.toNat && c.toNat ≤ 122 then Char.ofNat (c.toNat - 32) else c

/-- Python `str.title()` on ASCII text (the default display name of an
engine id not in the table). -/
def pyTitleGo : Bool → List Char → List Char
  | _, [] => []
  | prevAlpha, c :: rest =>
      (if isAsciiAlpha c then (if prevAlpha then pyLowerChar c else upperChar c) else c)
        :: pyTitleGo (isAsciiAlpha c) rest

/-- Python `str.title()`. -/
def pyTitle (s : String) : String := String.mk (pyTitleGo false s.toList)

/-- One marketplace search link. -/
structure ProductLink where
  name : String
  url : String
  engine : String
deriving DecidableEq

/-- `generate_product_links`: substitute the cleaned product name
(spaces → `+`, `&` → `and`) into every URL template configured for the
query's language. -/
def generateProductLinks (q : ProductQuery) : List ProductLink :=
  match alookupStr searchEngines q.language with
  | Option.none => []
  | some engines =>
      engines.map (fun ev =>
        let cleanQuery := pyReplace (pyReplace q.productName " " "+") "&" "and"
        let url := pyReplace ev.2 "{query}" cleanQuery
        let dn := (alookupStr ((alookupStr displayNames q.language).getD []) ev.1).getD
          (pyTitle ev.1)
        { name := dn, url := url, engine := ev.1 })

/- ### Basic lemmas about the store -/

theorem getv_setv_self (s : Session) (k : String) (v : Val) :
    getv (setv s k v) k = some v := by
  induction s with
  | nil => simp [getv, setv]
  | cons kv rest ih =>
      obtain ⟨k0, v0⟩ := kv
      by_cases h : k0 == k
      · simp [getv, setv, h]
      · simp [getv, setv, h, ih]

theorem getv_setv_of_ne (s : Session) (k k2 : String) (v : Val) (h : k2 ≠ k) :
    getv (setv s k v) k2 = getv s k2 := by
  have hne : k ≠ k2 := Ne.symm h
  induction s with
  | nil => simp [getv, setv, hne]
  | cons kv rest ih =>
      obtain ⟨k0, v0⟩ := kv
      by_cases h0 : k0 = k
      · subst h0
        simp [getv, setv, hne]
      · simp [getv, setv, h0, ih]

theorem alget_alset_self {α : Type} (l : List (Nat × α)) (k : Nat) (v : α) :
    alget (alset l k v) k = some v := by
  induction l with
  | nil => simp [alget, alset]
  | cons kv rest ih =>
      obtain ⟨k0, v0⟩ := kv
      by_cases h : k0 == k
      · simp [alget, alset, h]
      · simp [alget, alset, h, ih]

theorem alget_alset_of_ne {α : Type} (l : List (Nat × α)) (k k2 : Nat) (v : α)
    (h : k2 ≠ k) : alget (alset l k v) k2 = alget l k2 := by
  have hne : k ≠ k2 := Ne.symm h
  induction l with
  | nil => simp [alget, alset, hne]
  | cons kv rest ih =>
      obtain ⟨k0, v0⟩ := kv
      by_cases h0 : k0 = k
      · subst h0
        simp [alget, alset, hne]
      · simp [alget, alset, h0, ih]

/-- The cap always computes the 50-element tail (for short lists the drop
count is zero, so the two branches agree). -/
theorem capConv_eq_drop (l : List ConvMessage) :
    capConv l = l.drop (l.length - 50) := by
  unfold capConv
  by_cases h : l.length > 50
  · simp [h]
  · have : l.length - 50 = 0 := by omega
    simp [h, this]

theorem capConv_length_le (l : List ConvMessage) : (capConv l).length ≤ 50 := by
  rw [capConv_eq_drop]
  simp only [List.length_drop]
  omega

/-- Collapsing two caps around an append: the survivors only depend on the
last 50 elements of the concatenation. -/
theorem capConv_append (xs ys : List ConvMessage) :
    capConv (capConv xs ++ ys) = capConv (xs ++ ys) := by
  rw [capConv_eq_drop xs, capConv_eq_drop, capConv_eq_drop]
  rw [← List.drop_append_of_le_length (show xs.length - 50 ≤ xs.length by omega)]
  rw [List.drop_drop]
  congr 1
  simp only [List.length_append, List.length_drop]
  omega

theorem addMany_log (db : DB) (uid : Nat) (msgs : List ConvMessage)
    (hne : msgs ≠ []) :
    alget (addMany db uid msgs).convs uid
      = some (capConv (((alget db.convs uid).getD []) ++ msgs)) := by
  induction msgs generalizing db with
  | nil => exact absurd rfl hne
  | cons m rest ih =>
      unfold addMany
      simp only [List.foldl_cons]
      rcases Decidable.em (rest = []) with hr | hr
      · subst hr
        simp only [List.foldl_nil]
        unfold addConversationMessage
        simp [alget_alset_self]
      · have := ih (addConversationMessage db uid m.message m.sender m.timestamp) hr
        unfold addMany at this
        rw [this]
        unfold addConversationMessage
        simp only [alget_alset_self, Option.getD_some]
        rw [capConv_append]
        simp

/-- C5: after any `add_conversation_message` the stored log of the touched
user has at most 50 entries; appending a batch of 55 messages for one user
(starting from an empty log) leaves exactly the most recent 50, and the
survivors keep their oldest-first relative order (they are literally the
suffix `msgs.drop 5` of the appended sequence). -/
theorem conversation_log_cap
    (db : DB) (uid : Nat) (msgs : List ConvMessage)
    (h0 : (alget db.convs uid).getD [] = [])
    (hlen : msgs.length = 55) :
    (∀ (db2 : DB) (uid2 : Nat) (m s2 : String) (t2 : Nat),
        ((alget (addConversationMessage db2 uid2 m s2 t2).convs uid2).getD []).length ≤ 50) ∧
    alget (addMany db uid msgs).convs uid = some (msgs.drop 5) ∧
    (msgs.drop 5).length = 50 := by
  refine ⟨?_, ?_, ?_⟩
  · intro db2 uid2 m s2 t2
    unfold addConversationMessage
    simp only [alget_alset_self, Option.getD_some]
    exact capConv_length_le _
  · have hne : msgs ≠ [] := by
      intro he
      rw [he] at hlen
      simp at hlen
    rw [addMany_log db uid msgs hne, h0]
    rw [List.nil_append, capConv_eq_drop, hlen]
  · rw [List.length_drop, hlen]

/-- Witness for C5 at a concrete batch of 55 messages. -/
theorem conversation_log_cap_witness :
    ((alget (addConversationMessage (DB.mk false false [] []) 1 "hi" "user" 0).convs 1).getD
        []).length ≤ 50 ∧
    alget (addMany (DB.mk false false [] [])
        1 ((List.range 55).map fun i => ConvMessage.mk "m" "user" i)).convs 1
      = some (((List.range 55).map fun i => ConvMessage.mk "m" "user" i).drop 5) := by
  have h := conversation_log_cap (DB.mk false false [] [])
    1 ((List.range 55).map fun i => ConvMessage.mk "m" "user" i) (by rfl) (by rfl)
  exact ⟨h.1 (DB.mk false false [] []) 1 "hi" "user" 0, h.2.1⟩

/-- C10: `get_conversation_history` with `limit = 0` returns the whole stored
log (the slice `log[-0:]` is `log[0:]`), with any `limit` larger than the
stored count returns everything, and for an unknown user returns `[]`. -/
theorem history_limit_semantics
    (db : DB) (uid : Nat) (l : List ConvMessage) (limit : Nat)
    (hl : alget db.convs uid = some l) :
    getConversationHistory db uid 0 = l ∧
    (l.length < limit → getConversationHistory db uid limit = l) ∧
    (∀ (db2 : DB) (uid2 lim : Nat), alget db2.convs uid2 = Option.none →
        getConversationHistory db2 uid2 lim = []) := by
  refine ⟨?_, ?_, ?_⟩
  · unfold getConversationHistory
    rw [hl]
    simp
  · intro hlt
    unfold getConversationHistory
    rw [hl]
    have hz : limit ≠ 0 := by omega
    have hd : l.length - limit = 0 := by omega
    simp [hz, hd]
  · intro db2 uid2 lim h2
    unfold getConversationHistory
    rw [h2]

theorem setv_of_getv_eq (s : Session) (k : String) (v : Val)
    (h : getv s k = some v) : setv s k v = s := by
  induction s with
  | nil => cases h
  | cons a rest ih =>
      obtain ⟨k0, v0⟩ := a
      by_cases h0 : k0 = k
      · subst h0
        simp only [getv, beq_self_eq_true, if_true] at h
        obtain rfl : v0 = v := by simpa using h
        simp [setv]
      · have hb : (k0 == k) = false := beq_eq_false_iff_ne.mpr h0
        simp only [getv, hb, Bool.false_eq_true, if_false] at h
        simp [setv, hb, ih h]

theorem foldl_filter_if {α β : Type} (p : α → Bool) (f : β → α → β) (b : β) (l : List α) :
    l.foldl (fun acc x => if p x then f acc x else acc) b = (l.filter p).foldl f b := by
  induction l generalizing b with
  | nil => rfl
  | cons a rest ih =>
      by_cases h : p a
      · simp [List.filter_cons, h, ih]
      · simp [List.filter_cons, h, ih]

theorem foldl_update_users (l : Session) (db : DB) (uid t : Nat) (s : Session)
    (hs : alget db.users uid = some s) :
    alget ((l.foldl (fun acc kv => updateUserField acc uid kv.1 kv.2 t) db)).users uid
      = some (l.foldl (sessionWrite t) s) := by
  induction l generalizing db s with
  | nil => simpa using hs
  | cons kv rest ih =>
      simp only [List.foldl_cons]
      apply ih
      unfold updateUserField
      rw [hs]
      simp [alget_alset_self, sessionWrite]

theorem pass_getv_other (l : Session) (t : Nat) (s : Session) (k : String)
    (hk : ∀ kv ∈ l, k ≠ kv.1) (hku : k ≠ "updated_at") :
    getv (l.foldl (sessionWrite t) s) k = getv s k := by
  induction l generalizing s with
  | nil => rfl
  | cons a rest ih =>
      simp only [List.foldl_cons]
      rw [ih _ (fun kv hm => hk kv (List.mem_cons_of_mem a hm))]
      unfold sessionWrite
      rw [getv_setv_of_ne _ _ _ _ hku,
        getv_setv_of_ne _ _ _ _ (hk a (List.mem_cons_self a rest))]

theorem pass_getv_updated : ∀ (l : Session) (t : Nat) (s : Session), l ≠ [] →
    getv (l.foldl (sessionWrite t) s) "updated_at" = some (Val.int t)
  | [], _, _, h => absurd rfl h
  | [a], t, s, _ => by
      simp only [List.foldl_cons, List.foldl_nil, sessionWrite]
      exact getv_setv_self _ _ _
  | a :: b :: rest, t, s, _ => by
      simp only [List.foldl_cons]
      exact pass_getv_updated (b :: rest) t (sessionWrite t s a) (by simp)

theorem pass_getv_mem (l : Session) (t : Nat) (s : Session)
    (hnd : (l.map Prod.fst).Nodup) (hkeys : ∀ kv ∈ l, kv.1 ≠ "updated_at") :
    ∀ kv ∈ l, getv (l.foldl (sessionWrite t) s) kv.1 = some kv.2 := by
  induction l generalizing s with
  | nil => intro kv h; cases h
  | cons a rest ih =>
      intro kv hm
      rw [List.map_cons] at hnd
      have hnd2 := List.nodup_cons.mp hnd
      rcases List.mem_cons.mp hm with he | hm2
      · subst he
        simp only [List.foldl_cons]
        rw [pass_getv_other rest t _ kv.1 ?hk (hkeys kv (List.mem_cons_self _ _))]
        · simp only [sessionWrite]
          rw [getv_setv_of_ne _ _ _ _ (hkeys kv (List.mem_cons_self _ _)), getv_setv_self]
        case hk =>
          intro kv2 hm3 he2
          exact hnd2.1 (he2 ▸ List.mem_map_of_mem Prod.fst hm3)
      · simp only [List.foldl_cons]
        exact ih (sessionWrite t s a) hnd2.2
          (fun kv2 h2 => hkeys kv2 (List.mem_cons_of_mem _ h2)) kv hm2

theorem pass_stable (l : Session) (t : Nat) (s : Session)
    (hst : ∀ kv ∈ l, getv s kv.1 = some kv.2)
    (hup : l ≠ [] → getv s "updated_at" = some (Val.int t)) :
    l.foldl (sessionWrite t) s = s := by
  induction l with
  | nil => rfl
  | cons a rest ih =>
      have h1 : setv s a.1 a.2 = s :=
        setv_of_getv_eq _ _ _ (hst a (List.mem_cons_self _ _))
      have h2 : setv s "updated_at" (Val.int t) = s :=
        setv_of_getv_eq _ _ _ (hup (by simp))
      simp only [List.foldl_cons, sessionWrite, h1, h2]
      exact ih (fun kv h => hst kv (List.mem_cons_of_mem _ h)) (fun _ => hup (by simp))

theorem capConv_of_le (l : List ConvMessage) (h : l.length ≤ 50) : capConv l = l := by
  rw [capConv_eq_drop]
  have : l.length - 50 = 0 := by omega
  rw [this, List.drop_zero]

/-- A stripped-and-lowered answer matching a token of a list that does not
contain the empty string cannot come from blank input. -/
theorem token_input_nonempty (text : String) (l : List String)
    (h : l.contains (pyStrip (pyLower (pyStrip text))) = true)
    (hl : l.contains "" = false) : (pyStrip text == "") = false := by
  cases he : pyStrip text == "" with
  | false => rfl
  | true =>
      have hteq : pyStrip text = "" := by simpa using he
      have hz : pyStrip (pyLower (pyStrip text)) = "" := by
        rw [hteq]
        rfl
      rw [hz] at h
      rw [h] at hl
      cases hl

/-- The affirmative branch of `handle_restart_confirmation` in explicit
form, given that the users file exists. -/
theorem hrc_affirmative
    (db : DB) (uid : Nat) (input : String) (t : Nat)
    (hUF : db.usersFilePresent = true)
    (haff : affirmativeTokens.contains (pyStrip (pyLower input)) = true) :
    handleRestartConfirmation db uid input t =
      { db := addConversationMessage
          (resetUserData (addConversationMessage db uid input "user" t) uid t).2
          uid restartSuccessMessage "bot" t,
        reply := some restartSuccessMessage, aiCalled := false } := by
  unfold handleRestartConfirmation
  have hok : (resetUserData (addConversationMessage db uid input "user" t) uid t).1 = true := by
    unfold resetUserData addConversationMessage
    simp [hUF]
  simp only [haff, if_true, hok]

/-- The negative branch of `handle_restart_confirmation` in explicit form. -/
theorem hrc_negative
    (db : DB) (uid : Nat) (input : String) (t : Nat)
    (hneg : negativeTokens.contains (pyStrip (pyLower input)) = true)
    (haffn : affirmativeTokens.contains (pyStrip (pyLower input)) = false) :
    handleRestartConfirmation db uid input t =
      { db := addConversationMessage
          (updateUserField (addConversationMessage db uid input "user" t) uid
            "pending_confirmation" Val.none t) uid restartCancelMessage "bot" t,
        reply := some restartCancelMessage, aiCalled := false } := by
  unfold handleRestartConfirmation
  simp only [haffn, hneg, Bool.false_eq_true, if_false, if_true]

/-- C2: answering an affirmative token while a restart confirmation is
pending performs the full reset — the stored profile becomes the fresh
default session (only the user id carried over), the conversation log is
cleared before the success reply is appended — the success message is sent,
and `pending_confirmation` is no longer set.  The stored pending flag lives
in the users file, so the file is present and `reset_user_data` cannot take
its failure branch. -/
theorem restart_affirmative_resets
    (db : DB) (uid : Nat) (s : Session) (text : String) (t : Nat)
    (ai : String → Session → Session × String)
    (hs : alget db.users uid = some s)
    (hm : truthy (getv s "in_survey_mode") = false)
    (hp : getv s "pending_confirmation" = some (Val.str "restart"))
    (hUF : db.usersFilePresent = true)
    (haff : affirmativeTokens.contains (pyStrip (pyLower (pyStrip text))) = true) :
    alget (handleTextMessage db uid text t ai).db.users uid = some (freshSession uid t) ∧
    alget (handleTextMessage db uid text t ai).db.convs uid
      = some [ConvMessage.mk restartSuccessMessage "bot" t] ∧
    (handleTextMessage db uid text t ai).reply = some restartSuccessMessage ∧
    getv (freshSession uid t) "pending_confirmation" = some Val.none ∧
    getv (freshSession uid t) "user_id" = some (Val.int uid) := by
  have hne : (pyStrip text == "") = false :=
    token_input_nonempty text affirmativeTokens haff (by decide)
  have hpb : (getv s "pending_confirmation" == some (Val.str "restart")) = true := by
    rw [hp]
    rfl
  have hred : handleTextMessage db uid text t ai
      = handleRestartConfirmation db uid (pyStrip text) t := by
    unfold handleTextMessage getUserSession
    rw [hs]
    simp [hne, hm, hpb]
  rw [hred, hrc_affirmative db uid (pyStrip text) t hUF haff]
  unfold resetUserData addConversationMessage
  simp only [hUF, alget_alset_self, if_true, Option.getD_some]
  refine ⟨by simp [alget_alset_self], by simp [alget_alset_self, capConv], ?_, ?_, ?_⟩ <;>
    trivial

/-- Witness for C2: a profile with data and a pending restart, answering
"Да " (case-insensitive, surrounding space). -/
theorem restart_affirmative_resets_witness :
    alget (handleTextMessage
        (DB.mk true true
          [(3, setv (setv (defaultSession 3 0) "name" (Val.str "Ann"))
                "pending_confirmation" (Val.str "restart"))] [])
        3 " Да " 4 (fun _ s => (s, "x"))).db.users 3 = some (freshSession 3 4) ∧
    alget (handleTextMessage
        (DB.mk true true
          [(3, setv (setv (defaultSession 3 0) "name" (Val.str "Ann"))
                "pending_confirmation" (Val.str "restart"))] [])
        3 " Да " 4 (fun _ s => (s, "x"))).db.convs 3
      = some [ConvMessage.mk restartSuccessMessage "bot" 4] ∧
    getv (freshSession 3 4) "pending_confirmation" = some Val.none := by
  have h := restart_affirmative_resets
    (DB.mk true true
      [(3, setv (setv (defaultSession 3 0) "name" (Val.str "Ann"))
            "pending_confirmation" (Val.str "restart"))] [])
    3 (setv (setv (defaultSession 3 0) "name" (Val.str "Ann"))
        "pending_confirmation" (Val.str "restart"))
    " Да " 4 (fun _ s => (s, "x")) (by rfl) (by rfl) (by rfl) (by rfl) (by decide)
  exact ⟨h.1, h.2.1, h.2.2.2.1⟩

/-- C3 counterexample: answering "нет" with a pending restart does not leave
every non-`pending_confirmation` field byte-identical — `update_user_field`
refreshes `updated_at` while clearing the flag. -/
theorem restart_negative_not_byte_identical :
    ¬ (∀ k : String, k ≠ "pending_confirmation" →
        getv ((alget (handleTextMessage
            (DB.mk true true
              [(1, setv (defaultSession 1 0) "pending_confirmation" (Val.str "restart"))] [])
            1 "нет" 1 (fun _ s => (s, "x"))).db.users 1).getD []) k
          = getv (setv (defaultSession 1 0) "pending_confirmation" (Val.str "restart")) k) := by
  intro h
  have h2 := h "updated_at" (by decide)
  revert h2
  decide

/-- C3 (amended): answering a negative token while a restart confirmation is
pending clears `pending_confirmation`, sends the cancellation reply, leaves
every profile field except `pending_confirmation` and `updated_at` unchanged
(`update_user_field` refreshes the timestamp), and the conversation log only
gains the two exchanged messages (when it has room under the 50-entry
cap). -/
theorem restart_negative_frame
    (db : DB) (uid : Nat) (s : Session) (text : String) (t : Nat)
    (ai : String → Session → Session × String)
    (hs : alget db.users uid = some s)
    (hm : truthy (getv s "in_survey_mode") = false)
    (hp : getv s "pending_confirmation" = some (Val.str "restart"))
    (hneg : negativeTokens.contains (pyStrip (pyLower (pyStrip text))) = true)
    (haffn : affirmativeTokens.contains (pyStrip (pyLower (pyStrip text))) = false) :
    alget (handleTextMessage db uid text t ai).db.users uid
      = some (setv (setv s "pending_confirmation" Val.none) "updated_at" (Val.int t)) ∧
    (∀ k : String, k ≠ "pending_confirmation" → k ≠ "updated_at" →
        getv ((alget (handleTextMessage db uid text t ai).db.users uid).getD []) k
          = getv s k) ∧
    getv ((alget (handleTextMessage db uid text t ai).db.users uid).getD [])
        "pending_confirmation" = some Val.none ∧
    (handleTextMessage db uid text t ai).reply = some restartCancelMessage ∧
    (((alget db.convs uid).getD []).length ≤ 48 →
      alget (handleTextMessage db uid text t ai).db.convs uid
        = some ((alget db.convs uid).getD []
            ++ [ConvMessage.mk (pyStrip text) "user" t,
                ConvMessage.mk restartCancelMessage "bot" t])) := by
  have hne : (pyStrip text == "") = false :=
    token_input_nonempty text negativeTokens hneg (by decide)
  have hpb : (getv s "pending_confirmation" == some (Val.str "restart")) = true := by
    rw [hp]
    rfl
  have hred : handleTextMessage db uid text t ai
      = handleRestartConfirmation db uid (pyStrip text) t := by
    unfold handleTextMessage getUserSession
    rw [hs]
    simp [hne, hm, hpb]
  rw [hred, hrc_negative db uid (pyStrip text) t hneg haffn]
  unfold updateUserField addConversationMessage
  simp only [alget_alset_self, Option.getD_some, hs]
  refine ⟨by simp [alget_alset_self], ?_, ?_, by trivial, ?_⟩
  · intro k hk1 hk2
    rw [getv_setv_of_ne _ _ _ _ hk2, getv_setv_of_ne _ _ _ _ hk1]
  · rw [getv_setv_of_ne _ _ _ _ (by decide), getv_setv_self]
  · intro hlen
    have h1 : (((alget db.convs uid).getD [])
        ++ [ConvMessage.mk (pyStrip text) "user" t]).length ≤ 50 := by
      simp only [List.length_append, List.length_cons, List.length_nil]
      omega
    rw [capConv_of_le _ h1]
    have h2 : ((((alget db.convs uid).getD [])
        ++ [ConvMessage.mk (pyStrip text) "user" t])
        ++ [ConvMessage.mk restartCancelMessage "bot" t]).length ≤ 50 := by
      simp only [List.length_append, List.length_cons, List.length_nil]
      omega
    rw [capConv_of_le _ h2]
    simp

/-- Witness for C3 (amended) at a concrete profile and the answer "нет". -/
theorem restart_negative_frame_witness :
    getv ((alget (handleTextMessage
        (DB.mk true true
          [(1, setv (defaultSession 1 0) "pending_confirmation" (Val.str "restart"))] [])
        1 "нет" 1 (fun _ s => (s, "x"))).db.users 1).getD [])
      "pending_confirmation" = some Val.none ∧
    getv ((alget (handleTextMessage
        (DB.mk true true
          [(1, setv (defaultSession 1 0) "pending_confirmation" (Val.str "restart"))] [])
        1 "нет" 1 (fun _ s => (s, "x"))).db.users 1).getD []) "language"
      = getv (setv (defaultSession 1 0) "pending_confirmation" (Val.str "restart"))
          "language" ∧
    (handleTextMessage
        (DB.mk true true
          [(1, setv (defaultSession 1 0) "pending_confirmation" (Val.str "restart"))] [])
        1 "нет" 1 (fun _ s => (s, "x"))).reply = some restartCancelMessage := by
  have h := restart_negative_frame
    (DB.mk true true
      [(1, setv (defaultSession 1 0) "pending_confirmation" (Val.str "restart"))] [])
    1 (setv (defaultSession 1 0) "pending_confirmation" (Val.str "restart"))
    "нет" 1 (fun _ s => (s, "x")) (by rfl) (by rfl) (by rfl) (by decide) (by decide)
  exact ⟨h.2.2.1, h.2.1 "language" (by decide) (by decide), h.2.2.2.1⟩

/-- C6: while `in_survey_mode` is truthy, `handle_text_message` performs no
AI call, no field-merge and no log write, and replies nothing — whatever the
text and whatever `pending_confirmation` holds (the pending-confirmation
check sits after the survey-mode check, so the survey owns the turn). -/
theorem survey_mode_blocks_ai
    (db : DB) (uid : Nat) (s : Session) (text : String) (t : Nat)
    (ai : String → Session → Session × String)
    (hs : alget db.users uid = some s)
    (hm : truthy (getv s "in_survey_mode") = true) :
    handleTextMessage db uid text t ai
      = { db := db, reply := Option.none, aiCalled := false } := by
  unfold handleTextMessage
  cases he : (pyStrip text == "") with
  | true => simp [he]
  | false =>
      unfold getUserSession
      rw [hs]
      simp [he, hm]

/-- Witness for C6: a user in survey mode with a pending confirmation set;
the text turn changes nothing. -/
theorem survey_mode_blocks_ai_witness :
    handleTextMessage
      (DB.mk true true
        [(5, setv (setv (defaultSession 5 0) "in_survey_mode" (Val.bool true))
              "pending_confirmation" (Val.str "restart"))] [])
      5 "да" 3 (fun _ s => (s, "reply"))
      = { db := DB.mk true true
            [(5, setv (setv (defaultSession 5 0) "in_survey_mode" (Val.bool true))
                  "pending_confirmation" (Val.str "restart"))] [],
          reply := Option.none, aiCalled := false } :=
  survey_mode_blocks_ai _ 5 _ "да" 3 (fun _ s => (s, "reply")) (by rfl) (by rfl)

/-- C7: the Russian input "где купить такой диван" is detected as a specific
furniture query with a non-empty product phrase, and link generation yields
one link per configured Russian marketplace; "люблю диваны" yields a
category hit that is not specific. -/
theorem product_query_detection :
    (∃ q : ProductQuery,
      detectProductQuery "где купить такой диван" "russian" = Except.ok (some q) ∧
      q.isSpecificQuery = true ∧ q.category = "furniture" ∧ q.productName ≠ "" ∧
      (generateProductLinks q).map ProductLink.engine
        = ((alookupStr searchEngines "russian").getD []).map Prod.fst ∧
      ∀ l ∈ generateProductLinks q, l.url ≠ "") ∧
    (∃ q2 : ProductQuery,
      detectProductQuery "люблю диваны" "russian" = Except.ok (some q2) ∧
      q2.isSpecificQuery = false ∧ q2.category = "furniture") := by
  constructor
  · refine ⟨ProductQuery.mk "furniture" "диван" "такой диван" "russian" true, ?_, rfl, rfl, ?_, ?_, ?_⟩
    · rfl
    · decide
    · rfl
    · decide
  · exact ⟨ProductQuery.mk "furniture" "диван" "люблю диваны" "russian" false, by rfl, rfl, rfl⟩

/-- C9: `/restart` on a profile with no name, age, interests, empty
preferences and an uncompleted survey is refused with the nothing-to-reset
reply, leaves the state untouched and does not set `pending_confirmation`,
so a following text message takes the AI path, not the confirmation path. -/
theorem restart_no_data_refused
    (db : DB) (uid : Nat) (s : Session) (t : Nat)
    (hs : alget db.users uid = some s)
    (hname : truthy (getv s "name") = false)
    (hage : truthy (getv s "age") = false)
    (hinterests : truthy (getv s "interests") = false)
    (hpref : truthy (getv s "preferences") = false)
    (hsur : truthy (getv s "survey_completed") = false)
    (hpend : getv s "pending_confirmation" ≠ some (Val.str "restart")) :
    restartCommand db uid t
      = { db := db, reply := some nothingToResetMessage, aiCalled := false } ∧
    getv ((alget (restartCommand db uid t).db.users uid).getD []) "pending_confirmation"
      ≠ some (Val.str "restart") ∧
    ∀ (text : String) (t2 : Nat) (ai : String → Session → Session × String),
      pyStrip text ≠ "" → truthy (getv s "in_survey_mode") = false →
      (handleTextMessage (restartCommand db uid t).db uid text t2 ai).aiCalled = true := by
  have hcmd : restartCommand db uid t
      = { db := db, reply := some nothingToResetMessage, aiCalled := false } := by
    unfold restartCommand getUserSession
    rw [hs]
    simp [hasData, hname, hage, hinterests, hpref, hsur]
  refine ⟨hcmd, ?_, ?_⟩
  · rw [hcmd]
    simpa [hs] using hpend
  intro text t2 ai hne hsv
  rw [hcmd]
  unfold handleTextMessage
  have hne2 : (pyStrip text == "") = false := beq_eq_false_iff_ne.mpr hne
  unfold getUserSession
  rw [hs]
  have hp2 : (getv s "pending_confirmation" == some (Val.str "restart")) = false :=
    beq_eq_false_iff_ne.mpr hpend
  simp [hne2, hsv, hp2]

/-- Witness for C9: a fresh default profile. -/
theorem restart_no_data_refused_witness :
    restartCommand (DB.mk true true [(7, defaultSession 7 0)] []) 7 1
      = { db := DB.mk true true [(7, defaultSession 7 0)] [],
          reply := some nothingToResetMessage, aiCalled := false } ∧
    (handleTextMessage
        (restartCommand (DB.mk true true [(7, defaultSession 7 0)] []) 7 1).db
        7 "привет" 2 (fun _ s => (s, "ответ"))).aiCalled = true := by
  have h := restart_no_data_refused (DB.mk true true [(7, defaultSession 7 0)] []) 7
    (defaultSession 7 0) 1 (by rfl) (by rfl) (by rfl) (by rfl) (by rfl) (by rfl)
    (by decide)
  exact ⟨h.1, h.2.2 "привет" 2 (fun _ s => (s, "ответ")) (by decide) (by rfl)⟩

/-- C8 counterexample: the first photo of a fresh media group is NOT
processed — no AI analysis runs, nothing is logged, and the reply is the
one-photo-at-a-time explanation instead. -/
theorem media_group_first_photo_not_processed :
    (handlePhotoMessage (DB.mk true true [(1, defaultSession 1 0)] []) 1 (some "g1")
        (some "ru") "desc" 2 (fun s => (s, "ai"))).reply = some multiPhotoMessageRu ∧
    (handlePhotoMessage (DB.mk true true [(1, defaultSession 1 0)] []) 1 (some "g1")
        (some "ru") "desc" 2 (fun s => (s, "ai"))).aiCalled = false ∧
    alget (handlePhotoMessage (DB.mk true true [(1, defaultSession 1 0)] []) 1 (some "g1")
        (some "ru") "desc" 2 (fun s => (s, "ai"))).db.convs 1 = Option.none := by
  refine ⟨?_, ?_, ?_⟩ <;> rfl

/-- C8 (amended): a photo carrying a media-group id is never analysed: the
first image of a group marks the group as seen in the profile and is
answered with the one-photo-at-a-time explanation (per the sender's
language), without any AI call or log write; every further image of the
same group is silently skipped — so each group is answered at most once and
processed never. -/
theorem media_group_explains_and_dedups
    (db : DB) (uid : Nat) (s : Session) (g : String) (lang : Option String)
    (vd : String) (t : Nat) (ai : Session → Session × String)
    (hs : alget db.users uid = some s)
    (hfresh : truthy (getv s ("media_group_" ++ g)) = false) :
    (handlePhotoMessage db uid (some g) lang vd t ai).reply
      = some (if lang == some "ru" then multiPhotoMessageRu else multiPhotoMessageEn) ∧
    (handlePhotoMessage db uid (some g) lang vd t ai).aiCalled = false ∧
    (handlePhotoMessage db uid (some g) lang vd t ai).db.convs = db.convs ∧
    getv ((alget (handlePhotoMessage db uid (some g) lang vd t ai).db.users uid).getD [])
        ("media_group_" ++ g) = some (Val.bool true) ∧
    ∀ (lang2 : Option String) (vd2 : String) (t2 : Nat) (ai2 : Session → Session × String),
      handlePhotoMessage (handlePhotoMessage db uid (some g) lang vd t ai).db uid (some g)
          lang2 vd2 t2 ai2
        = { db := (handlePhotoMessage db uid (some g) lang vd t ai).db,
            reply := Option.none, aiCalled := false } := by
  have hkey : "media_group_" ++ g ≠ "updated_at" := by
    intro he
    have hlen := congrArg String.length he
    rw [String.length_append] at hlen
    have h10 : ("updated_at" : String).length = 10 := by decide
    have h12 : ("media_group_" : String).length = 12 := by decide
    omega
  have hfirst : handlePhotoMessage db uid (some g) lang vd t ai
      = { db := updateUserField db uid ("media_group_" ++ g) (Val.bool true) t,
          reply := some (if lang == some "ru" then multiPhotoMessageRu
            else multiPhotoMessageEn),
          aiCalled := false } := by
    unfold handlePhotoMessage getUserSession
    rw [hs]
    simp [hfresh]
  rw [hfirst]
  have hsession : alget (updateUserField db uid ("media_group_" ++ g) (Val.bool true) t).users
      uid = some (setv (setv s ("media_group_" ++ g) (Val.bool true)) "updated_at"
        (Val.int t)) := by
    unfold updateUserField
    rw [hs]
    simp [alget_alset_self]
  have hseen : getv ((alget (updateUserField db uid ("media_group_" ++ g) (Val.bool true)
        t).users uid).getD []) ("media_group_" ++ g) = some (Val.bool true) := by
    rw [hsession]
    simp only [Option.getD_some]
    rw [getv_setv_of_ne _ _ _ _ hkey, getv_setv_self]
  refine ⟨rfl, rfl, rfl, hseen, ?_⟩
  intro lang2 vd2 t2 ai2
  unfold handlePhotoMessage getUserSession
  rw [hsession]
  have htr : truthy (getv (setv (setv s ("media_group_" ++ g) (Val.bool true)) "updated_at"
      (Val.int t)) ("media_group_" ++ g)) = true := by
    rw [getv_setv_of_ne _ _ _ _ hkey, getv_setv_self]
    rfl
  simp [htr]

/-- Witness for C8 (amended): a two-photo media group; the first is
explained, the second silently skipped. -/
theorem media_group_explains_and_dedups_witness :
    (handlePhotoMessage (DB.mk true true [(9, defaultSession 9 0)] []) 9 (some "g7")
        (some "en") "d" 1 (fun s => (s, "a"))).reply = some multiPhotoMessageEn ∧
    handlePhotoMessage
        (handlePhotoMessage (DB.mk true true [(9, defaultSession 9 0)] []) 9 (some "g7")
          (some "en") "d" 1 (fun s => (s, "a"))).db
        9 (some "g7") (some "en") "d" 2 (fun s => (s, "a"))
      = { db := (handlePhotoMessage (DB.mk true true [(9, defaultSession 9 0)] []) 9
            (some "g7") (some "en") "d" 1 (fun s => (s, "a"))).db,
          reply := Option.none, aiCalled := false } := by
  have h := media_group_explains_and_dedups (DB.mk true true [(9, defaultSession 9 0)] [])
    9 (defaultSession 9 0) "g7" (some "en") "d" 1 (fun s => (s, "a")) (by rfl) (by rfl)
  exact ⟨h.1, h.2.2.2.2 (some "en") "d" 2 (fun s => (s, "a"))⟩

/-- Witness for C10 at a concrete two-entry log. -/
theorem history_limit_semantics_witness :
    getConversationHistory
        (DB.mk true true [] [(1, [ConvMessage.mk "a" "user" 0, ConvMessage.mk "b" "bot" 1])])
        1 0 = [ConvMessage.mk "a" "user" 0, ConvMessage.mk "b" "bot" 1] ∧
    getConversationHistory
        (DB.mk true true [] [(1, [ConvMessage.mk "a" "user" 0, ConvMessage.mk "b" "bot" 1])])
        1 5 = [ConvMessage.mk "a" "user" 0, ConvMessage.mk "b" "bot" 1] ∧
    getConversationHistory (DB.mk false false [] []) 2 3 = [] := by
  have h := history_limit_semantics
    (DB.mk true true [] [(1, [ConvMessage.mk "a" "user" 0, ConvMessage.mk "b" "bot" 1])])
    1 [ConvMessage.mk "a" "user" 0, ConvMessage.mk "b" "bot" 1] 5 (by rfl)
  exact ⟨h.1, h.2.1 (by decide), h.2.2 (DB.mk false false [] []) 2 3 (by rfl)⟩

/-- C4: the AI field-merge writes exactly the keys whose returned value
differs from the stored snapshot and is neither null nor empty, never issues
a write for `user_id`, `created_at` or `updated_at`, and is idempotent on
the stored profile: merging the same `(before, after)` pair twice yields the
same stored session as merging it once. -/
theorem merge_writes_and_idempotent
    (db : DB) (uid : Nat) (s before after : Session) (t : Nat)
    (hs : alget db.users uid = some s)
    (hnd : (after.map Prod.fst).Nodup) :
    (∀ kv ∈ mergedWrites before after,
        kv.1 ∉ mergeProtectedKeys ∧ kv.2 ≠ (getv before kv.1).getD Val.none ∧
        kv.2 ≠ Val.none ∧ kv.2 ≠ Val.str "") ∧
    applyMerge db uid before after t
      = (mergedWrites before after).foldl
          (fun acc kv => updateUserField acc uid kv.1 kv.2 t) db ∧
    alget (applyMerge (applyMerge db uid before after t) uid before after t).users uid
      = alget (applyMerge db uid before after t).users uid := by
  have hcond : ∀ kv ∈ mergedWrites before after,
      kv.1 ∉ mergeProtectedKeys ∧ kv.2 ≠ (getv before kv.1).getD Val.none ∧
      kv.2 ≠ Val.none ∧ kv.2 ≠ Val.str "" := by
    intro kv hm
    have hc := (List.mem_filter.mp hm).2
    simp only [mergeCond, Bool.and_eq_true, bne_iff_ne, Bool.not_eq_true] at hc
    obtain ⟨⟨⟨hp, hchg⟩, hnn⟩, hne⟩ := hc
    refine ⟨?_, hchg, hnn, hne⟩
    simp only [Bool.not_eq_true'] at hp
    simp at hp
    exact hp
  have hb : applyMerge db uid before after t
      = (mergedWrites before after).foldl
          (fun acc kv => updateUserField acc uid kv.1 kv.2 t) db := by
    unfold applyMerge mergedWrites
    by_cases hde : dictEq after before
    · rw [if_pos hde]
      have hde2 := hde
      simp only [dictEq, Bool.and_eq_true] at hde2
      have hnil : after.filter (mergeCond before) = [] := by
        rw [List.filter_eq_nil_iff]
        intro kv hm
        have hkv := List.all_eq_true.mp hde2.1 kv hm
        have hgv : getv before kv.1 = some kv.2 := by simpa using hkv
        simp [mergeCond, hgv]
      rw [hnil]
      rfl
    · rw [if_neg hde]
      exact foldl_filter_if _ _ _ _
  refine ⟨hcond, hb, ?_⟩
  have hb2 : applyMerge (applyMerge db uid before after t) uid before after t
      = (mergedWrites before after).foldl
          (fun acc kv => updateUserField acc uid kv.1 kv.2 t)
          (applyMerge db uid before after t) := by
    unfold applyMerge mergedWrites
    by_cases hde : dictEq after before
    · rw [if_pos hde]
      have hde2 := hde
      simp only [dictEq, Bool.and_eq_true] at hde2
      have hnil : after.filter (mergeCond before) = [] := by
        rw [List.filter_eq_nil_iff]
        intro kv hm
        have hkv := List.all_eq_true.mp hde2.1 kv hm
        have hgv : getv before kv.1 = some kv.2 := by simpa using hkv
        simp [mergeCond, hgv]
      rw [hnil]
      rfl
    · rw [if_neg hde]
      exact foldl_filter_if _ _ _ _
  have hndW : ((mergedWrites before after).map Prod.fst).Nodup :=
    List.Nodup.sublist (List.Sublist.map Prod.fst (List.filter_sublist after)) hnd
  have hkeysW : ∀ kv ∈ mergedWrites before after, kv.1 ≠ "updated_at" := by
    intro kv hm he
    exact (hcond kv hm).1 (by rw [he]; decide)
  have hW1 := foldl_update_users (mergedWrites before after) db uid t s hs
  have hW2 := foldl_update_users (mergedWrites before after) _ uid t _ hW1
  rw [hb2, hb, hW2, hW1]
  congr 1
  exact pass_stable _ t _ (pass_getv_mem _ t s hndW hkeysW)
    (fun hne2 => pass_getv_updated _ t s hne2)


/-- Witness for C4: an AI step that fills in `language` and `name`. -/
theorem merge_writes_and_idempotent_witness :
    applyMerge (DB.mk true true [(2, defaultSession 2 0)] []) 2 (defaultSession 2 0)
        (setv (setv (defaultSession 2 0) "language" (Val.str "russian")) "name"
          (Val.str "Bob")) 5
      = (mergedWrites (defaultSession 2 0)
          (setv (setv (defaultSession 2 0) "language" (Val.str "russian")) "name"
            (Val.str "Bob"))).foldl
          (fun acc kv => updateUserField acc 2 kv.1 kv.2 5)
          (DB.mk true true [(2, defaultSession 2 0)] []) ∧
    alget (applyMerge
        (applyMerge (DB.mk true true [(2, defaultSession 2 0)] []) 2 (defaultSession 2 0)
          (setv (setv (defaultSession 2 0) "language" (Val.str "russian")) "name"
            (Val.str "Bob")) 5)
        2 (defaultSession 2 0)
        (setv (setv (defaultSession 2 0) "language" (Val.str "russian")) "name"
          (Val.str "Bob")) 5).users 2
      = alget (applyMerge (DB.mk true true [(2, defaultSession 2 0)] []) 2
          (defaultSession 2 0)
          (setv (setv (defaultSession 2 0) "language" (Val.str "russian")) "name"
            (Val.str "Bob")) 5).users 2 := by
  have h := merge_writes_and_idempotent (DB.mk true true [(2, defaultSession 2 0)] []) 2
    (defaultSession 2 0) (defaultSession 2 0)
    (setv (setv (defaultSession 2 0) "language" (Val.str "russian")) "name"
      (Val.str "Bob")) 5 (by rfl) (by decide)
  exact ⟨h.2.1, h.2.2⟩

set_option maxHeartbeats 2000000 in
/-- C1: a full pass through the survey — a valid style choice followed by
the fourteen non-empty free-text answers in order — ends with
`survey_completed = True`, `in_survey_mode = False`, a cleared FSM state,
and every stored answer field equal to the literal text supplied at its
step. -/
theorem survey_completes_and_stores_answers
    (db : DB) (uid t : Nat) (style nm ds : String)
    (hstyle : alookupStr designStyles style = some (nm, ds))
    (a2 a3 a4 a5 a6 a7 a8 a9 a10 a11 a12 a13 a14 a15 : String)
    (h2 : a2 ≠ "") (h3 : a3 ≠ "") (h4 : a4 ≠ "") (h5 : a5 ≠ "") (h6 : a6 ≠ "") (h7 : a7 ≠ "") (h8 : a8 ≠ "") (h9 : a9 ≠ "") (h10 : a10 ≠ "") (h11 : a11 ≠ "") (h12 : a12 ≠ "") (h13 : a13 ≠ "") (h14 : a14 ≠ "") (h15 : a15 ≠ "") :
    (runFullSurvey db uid t style
        [a2, a3, a4, a5, a6, a7, a8, a9, a10, a11, a12, a13, a14, a15]).2
      = Option.none ∧
    getv ((alget (runFullSurvey db uid t style
        [a2, a3, a4, a5, a6, a7, a8, a9, a10, a11, a12, a13, a14, a15]).1.users uid).getD []) "survey_completed"
      = some (Val.bool true) ∧
    getv ((alget (runFullSurvey db uid t style
        [a2, a3, a4, a5, a6, a7, a8, a9, a10, a11, a12, a13, a14, a15]).1.users uid).getD []) "in_survey_mode"
      = some (Val.bool false) ∧
    getv ((alget (runFullSurvey db uid t style
        [a2, a3, a4, a5, a6, a7, a8, a9, a10, a11, a12, a13, a14, a15]).1.users uid).getD []) "preferred_style"
      = some (Val.str style) ∧
    getv ((alget (runFullSurvey db uid t style
        [a2, a3, a4, a5, a6, a7, a8, a9, a10, a11, a12, a13, a14, a15]).1.users uid).getD []) "style_description"
      = some (Val.str ds) ∧
    getv ((alget (runFullSurvey db uid t style
        [a2, a3, a4, a5, a6, a7, a8, a9, a10, a11, a12, a13, a14, a15]).1.users uid).getD []) "color_preference"
      = some (Val.str a2) ∧
    getv ((alget (runFullSurvey db uid t style
        [a2, a3, a4, a5, a6, a7, a8, a9, a10, a11, a12, a13, a14, a15]).1.users uid).getD []) "material_preference"
      = some (Val.str a3) ∧
    getv ((alget (runFullSurvey db uid t style
        [a2, a3, a4, a5, a6, a7, a8, a9, a10, a11, a12, a13, a14, a15]).1.users uid).getD []) "space_type"
      = some (Val.str a4) ∧
    getv ((alget (runFullSurvey db uid t style
        [a2, a3, a4, a5, a6, a7, a8, a9, a10, a11, a12, a13, a14, a15]).1.users uid).getD []) "room_preference"
      = some (Val.str a5) ∧
    getv ((alget (runFullSurvey db uid t style
        [a2, a3, a4, a5, a6, a7, a8, a9, a10, a11, a12, a13, a14, a15]).1.users uid).getD []) "layout_style"
      = some (Val.str a6) ∧
    getv ((alget (runFullSurvey db uid t style
        [a2, a3, a4, a5, a6, a7, a8, a9, a10, a11, a12, a13, a14, a15]).1.users uid).getD []) "functionality_preference"
      = some (Val.str a7) ∧
    getv ((alget (runFullSurvey db uid t style
        [a2, a3, a4, a5, a6, a7, a8, a9, a10, a11, a12, a13, a14, a15]).1.users uid).getD []) "lighting_preference"
      = some (Val.str a8) ∧
    getv ((alget (runFullSurvey db uid t style
        [a2, a3, a4, a5, a6, a7, a8, a9, a10, a11, a12, a13, a14, a15]).1.users uid).getD []) "storage_preference"
      = some (Val.str a9) ∧
    getv ((alget (runFullSurvey db uid t style
        [a2, a3, a4, a5, a6, a7, a8, a9, a10, a11, a12, a13, a14, a15]).1.users uid).getD []) "budget_range"
      = some (Val.str a10) ∧
    getv ((alget (runFullSurvey db uid t style
        [a2, a3, a4, a5, a6, a7, a8, a9, a10, a11, a12, a13, a14, a15]).1.users uid).getD []) "timeline"
      = some (Val.str a11) ∧
    getv ((alget (runFullSurvey db uid t style
        [a2, a3, a4, a5, a6, a7, a8, a9, a10, a11, a12, a13, a14, a15]).1.users uid).getD []) "project_priority"
      = some (Val.str a12) ∧
    getv ((alget (runFullSurvey db uid t style
        [a2, a3, a4, a5, a6, a7, a8, a9, a10, a11, a12, a13, a14, a15]).1.users uid).getD []) "lifestyle"
      = some (Val.str a13) ∧
    getv ((alget (runFullSurvey db uid t style
        [a2, a3, a4, a5, a6, a7, a8, a9, a10, a11, a12, a13, a14, a15]).1.users uid).getD []) "family_needs"
      = some (Val.str a14) ∧
    getv ((alget (runFullSurvey db uid t style
        [a2, a3, a4, a5, a6, a7, a8, a9, a10, a11, a12, a13, a14, a15]).1.users uid).getD []) "personal_touch"
      = some (Val.str a15) := by
  simp only [runFullSurvey, List.foldl_cons, List.foldl_nil, handleStyleChoice, hstyle,
    surveyRoute, handleSurveyAnswer, surveyStore, updateUserField, addConversationMessage,
    getUserSession, alget_alset_self, Option.getD_some]
  refine ⟨?_, ?_, ?_, ?_, ?_, ?_, ?_, ?_, ?_, ?_, ?_, ?_, ?_, ?_, ?_, ?_, ?_, ?_, ?_⟩ <;>
    simp [alget_alset_self, getv_setv_self, getv_setv_of_ne]


/-- Witness for C1: the style "modern" and concrete answers for all
fourteen text questions, starting from an empty store. -/
theorem survey_completes_and_stores_answers_witness :
    (runFullSurvey (DB.mk true true [] []) 4 1 "modern"
        ["o2", "o3", "o4", "o5", "o6", "o7", "o8", "o9", "o10", "o11", "o12", "o13",
         "o14", "o15"]).2 = Option.none ∧
    getv ((alget (runFullSurvey (DB.mk true true [] []) 4 1 "modern"
        ["o2", "o3", "o4", "o5", "o6", "o7", "o8", "o9", "o10", "o11", "o12", "o13",
         "o14", "o15"]).1.users 4).getD []) "survey_completed"
      = some (Val.bool true) ∧
    getv ((alget (runFullSurvey (DB.mk true true [] []) 4 1 "modern"
        ["o2", "o3", "o4", "o5", "o6", "o7", "o8", "o9", "o10", "o11", "o12", "o13",
         "o14", "o15"]).1.users 4).getD []) "in_survey_mode"
      = some (Val.bool false) ∧
    getv ((alget (runFullSurvey (DB.mk true true [] []) 4 1 "modern"
        ["o2", "o3", "o4", "o5", "o6", "o7", "o8", "o9", "o10", "o11", "o12", "o13",
         "o14", "o15"]).1.users 4).getD []) "color_preference"
      = some (Val.str "o2") ∧
    getv ((alget (runFullSurvey (DB.mk true true [] []) 4 1 "modern"
        ["o2", "o3", "o4", "o5", "o6", "o7", "o8", "o9", "o10", "o11", "o12", "o13",
         "o14", "o15"]).1.users 4).getD []) "personal_touch"
      = some (Val.str "o15") := by
  have h := survey_completes_and_stores_answers (DB.mk true true [] []) 4 1 "modern"
    "Современный (Modern)" "Чистые линии, минимализм, функциональность" (by rfl)
    "o2" "o3" "o4" "o5" "o6" "o7" "o8" "o9" "o10" "o11" "o12" "o13" "o14" "o15"
    (by decide) (by decide) (by decide) (by decide) (by decide) (by decide) (by decide)
    (by decide) (by decide) (by decide) (by decide) (by decide) (by decide) (by decide)
  exact ⟨h.1, h.2.1, h.2.2.1, h.2.2.2.2.2.1, h.2.2.2.2.2.2.2.2.2.2.2.2.2.2.2.2.2.2⟩

end BuildBuddy
